import Mathlib

/-!
Verification of the Binance earn-wallet leverage bot (main.py) against its
natural-language specification.  The Python source is shallowly embedded:
pure computations become Lean functions over Nat / Rat / String, the
network is abstracted by explicit outcome parameters, and mutable bot state
becomes a record that the embedded operations transform.  Python float
literals are modelled as exact rationals.
-/

set_option maxRecDepth 100000

namespace Spec2Proof

/-!
Section 1: HMAC-SHA256, embedding hmac.new(secret, msg, hashlib.sha256)
used by BinanceAPI._generate_signature (main.py lines 68-73).
Bytes are naturals below 256, words are naturals below 2^32.
-/

def w32mask : Nat := 4294967295

def add32 (a b : Nat) : Nat := (a + b) &&& w32mask

def rotr32 (n x : Nat) : Nat := ((x >>> n) ||| (x <<< (32 - n))) &&& w32mask

def not32 (x : Nat) : Nat := x ^^^ w32mask

def shaK : List Nat :=
  [1116352408, 1899447441, 3049323471, 3921009573, 961987163,
   1508970993, 2453635748, 2870763221, 3624381080, 310598401,
   607225278, 1426881987, 1925078388, 2162078206, 2614888103,
   3248222580, 3835390401, 4022224774, 264347078, 604807628,
   770255983, 1249150122, 1555081692, 1996064986, 2554220882,
   2821834349, 2952996808, 3210313671, 3336571891, 3584528711,
   113926993, 338241895, 666307205, 773529912, 1294757372,
   1396182291, 1695183700, 1986661051, 2177026350, 2456956037,
   2730485921, 2820302411, 3259730800, 3345764771, 3516065817,
   3600352804, 4094571909, 275423344, 430227734, 506948616,
   659060556, 883997877, 958139571, 1322822218, 1537002063,
   1747873779, 1955562222, 2024104815, 2227730452, 2361852424,
   2428436474, 2756734187, 3204031479, 3329325298]

def shaH0 : List Nat :=
  [1779033703, 3144134277, 1013904242, 2773480762,
   1359893119, 2600822924, 528734635, 1541459225]

/-- One step of the SHA-256 message-schedule extension; the accumulator holds
the schedule so far in reverse order (most recent word first). -/
def scheduleStep (acc : List Nat) : List Nat :=
  let wm2 := acc.getD 1 0
  let wm7 := acc.getD 6 0
  let wm15 := acc.getD 14 0
  let wm16 := acc.getD 15 0
  let s0 := (rotr32 7 wm15) ^^^ (rotr32 18 wm15) ^^^ (wm15 >>> 3)
  let s1 := (rotr32 17 wm2) ^^^ (rotr32 19 wm2) ^^^ (wm2 >>> 10)
  (add32 (add32 wm16 s0) (add32 wm7 s1)) :: acc

def extendScheduleAux : Nat → List Nat → List Nat
  | 0, acc => acc
  | n + 1, acc => extendScheduleAux n (scheduleStep acc)

def extendSchedule (ws : List Nat) : List Nat :=
  (extendScheduleAux 48 ws.reverse).reverse

structure ShaRegs where
  a : Nat
  b : Nat
  c : Nat
  d : Nat
  e : Nat
  f : Nat
  g : Nat
  h : Nat

def shaRound (r : ShaRegs) (kw : Nat × Nat) : ShaRegs :=
  let bs1 := (rotr32 6 r.e) ^^^ (rotr32 11 r.e) ^^^ (rotr32 25 r.e)
  let ch := (r.e &&& r.f) ^^^ ((not32 r.e) &&& r.g)
  let t1 := add32 (add32 (add32 r.h bs1) (add32 ch kw.1)) kw.2
  let bs0 := (rotr32 2 r.a) ^^^ (rotr32 13 r.a) ^^^ (rotr32 22 r.a)
  let maj := (r.a &&& r.b) ^^^ (r.a &&& r.c) ^^^ (r.b &&& r.c)
  let t2 := add32 bs0 maj
  ⟨add32 t1 t2, r.a, r.b, r.c, add32 r.d t1, r.e, r.f, r.g⟩

def compress (hs : List Nat) (chunkWords : List Nat) : List Nat :=
  let ws := extendSchedule chunkWords
  let r0 : ShaRegs := ⟨hs.getD 0 0, hs.getD 1 0, hs.getD 2 0, hs.getD 3 0,
                       hs.getD 4 0, hs.getD 5 0, hs.getD 6 0, hs.getD 7 0⟩
  let r := (shaK.zip ws).foldl shaRound r0
  [add32 (hs.getD 0 0) r.a, add32 (hs.getD 1 0) r.b, add32 (hs.getD 2 0) r.c,
   add32 (hs.getD 3 0) r.d, add32 (hs.getD 4 0) r.e, add32 (hs.getD 5 0) r.f,
   add32 (hs.getD 6 0) r.g, add32 (hs.getD 7 0) r.h]

def bytesBE : Nat → Nat → List Nat
  | 0, _ => []
  | k + 1, n => ((n >>> (8 * k)) &&& 255) :: bytesBE k n

def padMessage (msg : List Nat) : List Nat :=
  let len := msg.length
  let zeros := (119 - len % 64) % 64
  msg ++ [128] ++ List.replicate zeros 0 ++ bytesBE 8 (len * 8)

def bytesToWords : List Nat → List Nat
  | b0 :: b1 :: b2 :: b3 :: rest =>
      ((b0 <<< 24) ||| (b1 <<< 16) ||| (b2 <<< 8) ||| b3) :: bytesToWords rest
  | _ => []

def splitChunks : Nat → List Nat → List (List Nat)
  | 0, _ => []
  | _, [] => []
  | fuel + 1, l => l.take 64 :: splitChunks fuel (l.drop 64)

def wordsToBytes (ws : List Nat) : List Nat :=
  ws.foldr (fun w acc => bytesBE 4 w ++ acc) []

def sha256Bytes (msg : List Nat) : List Nat :=
  let padded := padMessage msg
  let chunks := splitChunks (padded.length) padded
  wordsToBytes (chunks.foldl (fun hs chunk => compress hs (bytesToWords chunk)) shaH0)

def hexDigit (n : Nat) : Char :=
  if n < 10 then Char.ofNat (48 + n) else Char.ofNat (87 + n)

def byteToHex (b : Nat) : String :=
  String.mk [hexDigit ((b / 16) % 16), hexDigit (b % 16)]

def bytesToHex (bs : List Nat) : String :=
  String.join (bs.map byteToHex)

/-- UTF-8 encoding of one character, as the encode calls in
_generate_signature produce. -/
def utf8EncodeChar (c : Char) : List Nat :=
  let n := c.toNat
  if n < 128 then [n]
  else if n < 2048 then [192 ||| (n >>> 6), 128 ||| (n &&& 63)]
  else if n < 65536 then
    [224 ||| (n >>> 12), 128 ||| ((n >>> 6) &&& 63), 128 ||| (n &&& 63)]
  else
    [240 ||| (n >>> 18), 128 ||| ((n >>> 12) &&& 63),
     128 ||| ((n >>> 6) &&& 63), 128 ||| (n &&& 63)]

def strBytes (s : String) : List Nat :=
  s.data.foldr (fun c acc => utf8EncodeChar c ++ acc) []

/-- HMAC-SHA256 with the 64-byte block size, per RFC 2104, which is what
hmac.new with hashlib.sha256 computes. -/
def hmacSha256 (key msg : List Nat) : List Nat :=
  let k0 := if 64 < key.length then sha256Bytes key else key
  let kp := k0 ++ List.replicate (64 - k0.length) 0
  let ipadded := kp.map (fun b => b ^^^ 54)
  let opadded := kp.map (fun b => b ^^^ 92)
  sha256Bytes (opadded ++ sha256Bytes (ipadded ++ msg))

/-- BinanceAPI._generate_signature (main.py lines 68-73): the hex digest of
the HMAC-SHA256 of the UTF-8 encoded query string under the UTF-8 encoded
API secret. -/
def generate_signature (apiSecret queryString : String) : String :=
  bytesToHex (hmacSha256 (strBytes apiSecret) (strBytes queryString))

/-- FIPS 180-4 test vector for the embedded SHA-256, checking the hash core
is the real algorithm and not a placeholder. -/
theorem sha256_test_vector :
    bytesToHex (sha256Bytes (strBytes "abc")) =
      "ba7816bf8f01cfea414140de5dae2223b00361a396177a9cb410ff61f20015ad" := by
  rfl

/-- RFC 4231 test case 2 for the embedded HMAC-SHA256. -/
theorem hmac_test_vector :
    generate_signature "Jefe" "what do ya want for nothing?" =
      "5bdcc146bf60754e6a042426089575c75a003f089d2739839dec58b964ec3843" := by
  rfl

/-!
Section 2: the signed REST client BinanceAPI._make_request
(main.py lines 75-123) and the endpoint whitelist (lines 60-66).
JSON values returned by the requests library are modelled by JVal;
the network outcome of one dispatched HTTP request is an explicit
HttpOutcome parameter.
-/

inductive JVal where
  | jstr : String → JVal
  | jnum : ℚ → JVal
  | jbool : Bool → JVal
  | jnull : JVal
  | jarr : List JVal → JVal
  | jobj : List (String × JVal) → JVal

def lookupField : List (String × JVal) → String → Option JVal
  | [], _ => none
  | (k, v) :: rest, key => if k = key then some v else lookupField rest key

/-- Dictionary lookup on a JSON value: some value when the value is an
object holding the key, none otherwise. -/
def jvalLookup : JVal → String → Option JVal
  | JVal.jobj fields, key => lookupField fields key
  | _, _ => none

/-- The public (unsigned) endpoints of BinanceAPI.__init__, lines 60-66. -/
def publicEndpoints : List String :=
  ["/api/v3/ping", "/api/v3/time", "/api/v3/ticker/price",
   "/api/v3/exchangeInfo", "/sapi/v1/loan/flexible/data"]

structure PreparedRequest where
  params : List (String × String)
  headers : List (String × String)
deriving DecidableEq

/-- The query string built at line 85: the ampersand-join of k=v pairs in
insertion order. -/
def queryStringOf (ps : List (String × String)) : String :=
  String.intercalate "&" (ps.map fun kv => kv.1 ++ "=" ++ kv.2)

/-- Lines 79-89 of _make_request: resolve require_auth (None means the
endpoint is not in public_endpoints), then either sign - append timestamp
and recvWindow, sign the joined query string, append the signature, use the
X-MBX-APIKEY header - or send the parameters untouched with empty headers.
The params argument models the Python dict as an insertion-ordered list,
with every value already rendered to the string the query join produces;
ts models int(time.time() * 1000). -/
def prepareRequest (apiSecret apiKey endpoint : String)
    (params : List (String × String)) (requireAuth : Option Bool) (ts : Nat) :
    PreparedRequest :=
  let auth := requireAuth.getD (!(publicEndpoints.contains endpoint))
  if auth then
    let withTs := params ++ [("timestamp", toString ts), ("recvWindow", "60000")]
    ⟨withTs ++ [("signature", generate_signature apiSecret (queryStringOf withTs))],
     [("X-MBX-APIKEY", apiKey)]⟩
  else
    ⟨params, []⟩

/-- The response the requests library hands back for one dispatched call.
body models response.json(): ok v when the body parses to the JSON value v,
error msg when response.json() raises with message msg. -/
structure HttpResponse where
  status_code : Nat
  body : Except String JVal
  text : String

/-- The outcome of one requests.get/post/delete call: a response, or one of
the exceptions the three except clauses of _make_request catch. -/
inductive HttpOutcome where
  | response : HttpResponse → HttpOutcome
  | timeout : HttpOutcome
  | connectionFailure : HttpOutcome
  | otherException : String → HttpOutcome

def errorDict (e m : String) : JVal :=
  JVal.jobj [("error", JVal.jstr e), ("message", JVal.jstr m)]

/-- Lines 101-123 of _make_request: on status 200 return the parsed body
(a parse failure there is caught by the catch-all except and yields the
exception dict); on any other status build the error/message/code dict,
falling back to error/message over the raw text when the body is not a
JSON object; map timeout, connection failure and any other exception to
their fixed dicts. -/
def handleOutcome : HttpOutcome → JVal
  | HttpOutcome.response r =>
    if r.status_code = 200 then
      match r.body with
      | Except.ok v => v
      | Except.error msg => errorDict "exception" msg
    else
      match r.body with
      | Except.ok (JVal.jobj fields) =>
          JVal.jobj [("error", JVal.jstr ("HTTP " ++ toString r.status_code)),
                     ("message", (lookupField fields "msg").getD (JVal.jstr r.text)),
                     ("code", (lookupField fields "code").getD (JVal.jnum r.status_code))]
      | _ => errorDict ("HTTP " ++ toString r.status_code) r.text
  | HttpOutcome.timeout => errorDict "timeout" "Request timed out"
  | HttpOutcome.connectionFailure => errorDict "connection" "Connection failed"
  | HttpOutcome.otherException msg => errorDict "exception" msg

/-- BinanceAPI._make_request, lines 75-123: prepare the request, dispatch it
when the method is GET, POST or DELETE, and translate the outcome.  For any
other method the name response is unbound, so the final read of
response.status_code raises a NameError that the catch-all except turns
into the exception dict (Python renders the message with quotes around the
word response).  Returns the request as prepared for the HTTP library
together with the dict the caller receives. -/
def make_request (apiSecret apiKey endpoint : String)
    (params : List (String × String)) (method : String)
    (requireAuth : Option Bool) (ts : Nat) (outcome : HttpOutcome) :
    PreparedRequest × JVal :=
  let req := prepareRequest apiSecret apiKey endpoint params requireAuth ts
  if method = "GET" ∨ method = "POST" ∨ method = "DELETE" then
    (req, handleOutcome outcome)
  else
    (req, errorDict "exception" "name response is not defined")

/-!
Section 3: the cascade executor _execute_earn_cascade_strategy
(main.py lines 781-878), embedded from the loop at line 842 onward.  The
available_assets list (already filtered and sorted by volatility), the
collateral data cache and the effectful helper _execute_earn_level are
parameters; _execute_earn_level is abstracted by the pair
(success, actual_loan) it returns for each invocation.
-/

/-- The AssetConfig dataclass (main.py lines 17-24). -/
structure AssetConfig where
  symbol : String
  ltv_max : ℚ
  yield_rate : ℚ
  liquidity_tier : Nat
  loan_rate : ℚ
  volatility_factor : ℚ
deriving DecidableEq

/-- The hardcoded asset table built at lines 400-414 (Python float literals
as exact rationals). -/
def asset_config_table : List (String × AssetConfig) :=
  [("BTC", ⟨"BTC", 65/100, 4/100, 1, 25/1000, 25/100⟩),
   ("ETH", ⟨"ETH", 60/100, 5/100, 1, 28/1000, 30/100⟩),
   ("BNB", ⟨"BNB", 55/100, 6/100, 1, 30/1000, 35/100⟩),
   ("USDT", ⟨"USDT", 70/100, 8/100, 1, 20/1000, 10/100⟩),
   ("USDC", ⟨"USDC", 70/100, 75/1000, 1, 21/1000, 10/100⟩),
   ("ADA", ⟨"ADA", 50/100, 8/100, 2, 35/1000, 50/100⟩),
   ("DOT", ⟨"DOT", 45/100, 9/100, 2, 38/1000, 55/100⟩),
   ("LINK", ⟨"LINK", 40/100, 10/100, 2, 40/1000, 60/100⟩),
   ("AVAX", ⟨"AVAX", 45/100, 9/100, 2, 37/1000, 52/100⟩),
   ("MATIC", ⟨"MATIC", 40/100, 11/100, 2, 41/1000, 58/100⟩),
   ("SOL", ⟨"SOL", 50/100, 8/100, 2, 36/1000, 48/100⟩)]

def lookupAsset (name : String) : Option AssetConfig :=
  (asset_config_table.find? (fun kv => kv.1 == name)).map (fun kv => kv.2)

/-- self.max_cascade_levels, set to 3 in __init__ at line 350. -/
def max_cascade_levels : Nat := 3

/-- One executed iteration of the cascade loop: the 1-based level number,
the asset picked, the capital at the start of the iteration, the max_loan
requested (line 854), and the (success, actual_loan) pair the level
execution returned (line 859). -/
structure LevelRecord where
  level : Nat
  asset : String
  startCapital : ℚ
  maxLoan : ℚ
  success : Bool
  actualLoan : ℚ
deriving DecidableEq

/-- The body of the cascade loop (lines 842-872), one recursive step per
remaining entry of the truncated available_assets list.  cache gives the
initial_ltv stored in collateral_data_cache for an asset, if the cache
holds the asset (lines 849-851); ex abstracts _execute_earn_level.
Breaks when the running capital is below 15 (line 843) or when a level
reports failure or a non-positive loan (lines 863-869); on success the
actual loan becomes the running capital (line 864). -/
def runCascade (ex : Nat → String → ℚ → ℚ → Bool × ℚ) (cache : String → Option ℚ) :
    List (String × AssetConfig) → Nat → ℚ → List LevelRecord
  | [], _, _ => []
  | hd :: rest, level, cc =>
    if cc < 15 then []
    else
      let maxLtv := (cache hd.1).getD hd.2.ltv_max
      let maxLoan := cc * maxLtv * (85 / 100)
      let res := ex (level + 1) hd.1 cc maxLoan
      if res.1 = true ∧ 0 < res.2 then
        ⟨level + 1, hd.1, cc, maxLoan, res.1, res.2⟩ ::
          runCascade ex cache rest (level + 1) res.2
      else
        [⟨level + 1, hd.1, cc, maxLoan, res.1, res.2⟩]

/-- The cascade loop of _execute_earn_cascade_strategy: iterate over
range(min(max_cascade_levels, len(available_assets))) with the break
conditions of runCascade, starting from level index 0 and the given
capital. -/
def execute_earn_cascade_strategy (ex : Nat → String → ℚ → ℚ → Bool × ℚ)
    (cache : String → Option ℚ) (available : List (String × AssetConfig))
    (capital : ℚ) : List LevelRecord :=
  runCascade ex cache
    (available.take (min max_cascade_levels available.length)) 0 capital

/-!
Section 4: portfolio state.  The Position dataclass (lines 26-40), the
mutable bot fields touched by stop_trading (lines 1309-1336) and
_emergency_liquidate_position (lines 1246-1307).  The timestamp field is
modelled as an abstract Option Nat tick.
-/

structure Position where
  asset : String
  collateral_amount : ℚ
  loan_amount : ℚ
  loan_asset : String
  current_ltv : ℚ
  yield_earned : ℚ
  level : Nat
  order_id : Option String := none
  earn_product_id : Option String := none
  loan_order_id : Option String := none
  loan_rate : ℚ := 0
  entry_price : ℚ := 0
  timestamp : Option Nat := none
deriving DecidableEq

/-- The bot fields of EarnWalletLeverageBot.__init__ that the claims
concern (lines 362-370). -/
structure BotState where
  positions : List Position
  total_capital : ℚ
  leveraged_capital : ℚ
  total_yield : ℚ
  is_running : Bool
  bot_status : String
deriving DecidableEq

/-- stop_trading (lines 1309-1336), non-exception path: sets is_running
False, closes every position in reverse order (the API side effects of
_close_earn_position touch no bot field; the list of positions closed is
returned as the second component), clears the positions list, zeroes
leveraged_capital and total_yield, and sets bot_status to Stopped. -/
def stop_trading (s : BotState) : BotState × List Position :=
  ({ s with is_running := false, positions := [], leveraged_capital := 0,
            total_yield := 0, bot_status := "Stopped" },
   s.positions.reverse)

/-- Python truthiness of an optional string: None and the empty string are
falsy. -/
def truthyStr : Option String → Bool
  | none => false
  | some s => !(s == "")

/-- The tail of _emergency_liquidate_position after the loan-repayment
block (lines 1283-1302): a failing withdraw from savings returns early;
otherwise the emergency sell fires (no state field changes) and the
position is removed from the list. -/
def liquidateTail (s : BotState) (p : Position) (withdrawOk : Bool) : BotState :=
  if truthyStr p.earn_product_id = true ∧ withdrawOk = false then s
  else { s with positions := s.positions.erase p }

/-- _emergency_liquidate_position (lines 1246-1307) on the bot state.  The
booleans give the outcomes of the loan-asset buy order (only consulted when
the loan asset is not USDT), the loan repayment, and the savings withdraw;
an early return on failure leaves the state unchanged (list.remove of a
present element is List.erase; when the element is absent Python raises and
the outer except also leaves the list unchanged, which erase matches). -/
def emergency_liquidate_position (s : BotState) (p : Position)
    (buyOk repayOk withdrawOk : Bool) : BotState :=
  if truthyStr p.loan_order_id = true then
    if p.loan_asset ≠ "USDT" ∧ buyOk = false then s
    else if repayOk = false then s
    else liquidateTail s p withdrawOk
  else liquidateTail s p withdrawOk

/-!
Section 5: get_portfolio_status (lines 1453-1514).  Python division is
embedded as pydiv, returning an error value exactly when the denominator is
zero, so that the guarded conditionals of the source can be checked to
never evaluate a division by zero.  price abstracts _get_asset_price.
-/

def pydiv (a b : ℚ) : Except String ℚ :=
  if b = 0 then Except.error "ZeroDivisionError" else Except.ok (a / b)

/-- The scalar entries of the dict get_portfolio_status returns (the
positions array and the wall-clock last_update entry are not modelled).
leverage_ratio_entry is the leverage_ratio key of the source dict. -/
structure PortfolioStatus where
  bot_status : String
  total_positions : Nat
  total_capital : ℚ
  leveraged_capital : ℚ
  net_portfolio_value : ℚ
  total_yield : ℚ
  leverage_ratio_entry : ℚ
deriving DecidableEq

/-- get_portfolio_status (lines 1453-1495): sum collateral and loan values
over the positions, guard both divisions by total_capital behind the
total_capital > 0 test, and assemble the status record.  total_yield is the
roi_percentage of line 1485. -/
def get_portfolio_status (price : String → ℚ) (s : BotState) :
    Except String PortfolioStatus :=
  let total_collateral_value :=
    s.positions.foldl (fun acc p => acc + p.collateral_amount * price p.asset) 0
  let total_loan_value :=
    s.positions.foldl (fun acc p =>
      acc + (if p.loan_asset = "USDT" then p.loan_amount
             else p.loan_amount * price p.loan_asset)) 0
  let net_value := total_collateral_value - total_loan_value
  let leverageE :=
    if 0 < s.total_capital then pydiv total_collateral_value s.total_capital
    else Except.ok 0
  let annual_yield :=
    s.positions.foldl (fun acc p =>
      match lookupAsset p.asset with
      | none => acc
      | some cfg =>
        let lr := if 0 < p.loan_rate then p.loan_rate else cfg.loan_rate
        acc + (cfg.yield_rate - lr) * (p.collateral_amount * price p.asset)) 0
  let roiE :=
    if 0 < s.total_capital then
      (pydiv annual_yield s.total_capital).map (fun q => q * 100)
    else Except.ok 0
  match leverageE, roiE with
  | Except.ok leverage, Except.ok roi =>
      Except.ok ⟨s.bot_status, s.positions.length, s.total_capital,
                 total_loan_value, net_value, roi, leverage⟩
  | Except.error e, _ => Except.error e
  | _, Except.error e => Except.error e

/-!
Section 6: the Flask control plane (lines 2207-2299) and the method table
of EarnWalletLeverageBot, for the route-registration and /balances claims.
-/

structure Route where
  path : String
  methodsAllowed : List String
deriving DecidableEq

/-- The app.route registrations of main.py (lines 2207-2299); a
registration without a methods argument accepts GET (the implicit
HEAD/OPTIONS of Flask are not modelled). -/
def appRoutes : List Route :=
  [⟨"/", ["GET"]⟩,
   ⟨"/start", ["POST"]⟩,
   ⟨"/stop", ["POST"]⟩,
   ⟨"/status", ["GET"]⟩,
   ⟨"/balances", ["GET"]⟩,
   ⟨"/test", ["GET"]⟩]

def registersRoute (method path : String) : Bool :=
  appRoutes.any (fun r => r.path == path && r.methodsAllowed.contains method)

/-- Modelled from the spec: the endpoint list of its section 6, external
interfaces - POST /start, POST /stop, GET /status, GET /balances,
GET /assets.  This definition follows the wording of the spec so it can be
compared against the routes the code registers. -/
def specListedEndpoints : List (String × String) :=
  [("POST", "/start"), ("POST", "/stop"), ("GET", "/status"),
   ("GET", "/balances"), ("GET", "/assets")]

/-- The methods defined on class EarnWalletLeverageBot (lines 326-1571):
every def at class level.  The balance-computation block at lines 1572-1652
sits after the return statement of test_connection and belongs to no def,
so it contributes no method. -/
def earnWalletLeverageBotMethods : List String :=
  ["__init__", "_initialize_asset_config", "_save_positions",
   "_load_positions", "_update_price_cache", "_load_savings_products",
   "_load_savings_products_fallback", "_load_loan_data",
   "_get_optimal_loan_asset", "_get_asset_price", "_get_symbol_info",
   "_format_quantity", "start_trading", "_execute_earn_cascade_strategy",
   "_execute_earn_level", "_emergency_sell", "_start_monitoring",
   "_monitor_positions", "_emergency_liquidate_position", "stop_trading",
   "_close_earn_position", "get_portfolio_status", "test_connection"]

/-- The outcome of one Flask handler invocation: a JSON response, or an
uncaught Python exception escaping the handler. -/
inductive HandlerOutcome where
  | json : JVal → HandlerOutcome
  | attributeError : String → HandlerOutcome

/-- The GET /balances handler (lines 2269-2283).  When no bot exists and no
credentials are configured it returns the fixed error JSON; otherwise a bot
instance exists (or is constructed) and the handler evaluates
bot.get_account_balances(), an attribute lookup against the methods of
EarnWalletLeverageBot that raises AttributeError when the name is absent.
The branch taken when the lookup succeeds is unreachable (the class defines
no such method) and is modelled as null. -/
def get_balances_handler (botExists credsConfigured : Bool) : HandlerOutcome :=
  if botExists = false ∧ credsConfigured = false then
    HandlerOutcome.json (JVal.jobj
      [("total_usd_value", JVal.jnum 0), ("balances", JVal.jobj []),
       ("loans", JVal.jobj []), ("error", JVal.jstr "No API credentials")])
  else if earnWalletLeverageBotMethods.contains "get_account_balances" then
    HandlerOutcome.json JVal.jnull
  else
    HandlerOutcome.attributeError "get_account_balances"

/-!
Section 7: helper lemmas about the cascade loop.
-/

theorem runCascade_length_le (ex : Nat → String → ℚ → ℚ → Bool × ℚ)
    (cache : String → Option ℚ) :
    ∀ (l : List (String × AssetConfig)) (lvl : Nat) (cc : ℚ),
      (runCascade ex cache l lvl cc).length ≤ l.length := by
  intro l
  induction l with
  | nil => intro lvl cc; simp [runCascade]
  | cons hd rest ih =>
    intro lvl cc
    simp only [runCascade]
    split
    · simp
    · split
      · simpa using ih (lvl + 1) _
      · simp

theorem runCascade_head_start (ex : Nat → String → ℚ → ℚ → Bool × ℚ)
    (cache : String → Option ℚ) (l : List (String × AssetConfig)) (lvl : Nat)
    (cc : ℚ) (r : LevelRecord)
    (h : (runCascade ex cache l lvl cc)[0]? = some r) :
    r.startCapital = cc := by
  cases l with
  | nil => simp [runCascade] at h
  | cons hd rest =>
    simp only [runCascade] at h
    split at h
    · simp at h
    · split at h
      · rw [List.getElem?_cons_zero] at h
        injection h with h
        subst h; rfl
      · rw [List.getElem?_cons_zero] at h
        injection h with h
        subst h; rfl

theorem runCascade_start_ge (ex : Nat → String → ℚ → ℚ → Bool × ℚ)
    (cache : String → Option ℚ) :
    ∀ (l : List (String × AssetConfig)) (lvl : Nat) (cc : ℚ) (r : LevelRecord),
      r ∈ runCascade ex cache l lvl cc → 15 ≤ r.startCapital := by
  intro l
  induction l with
  | nil => intro lvl cc r h; simp [runCascade] at h
  | cons hd rest ih =>
    intro lvl cc r h
    simp only [runCascade] at h
    split at h
    · simp at h
    · rename_i h15
      split at h
      · rcases List.mem_cons.mp h with h | h
        · subst h; exact le_of_not_lt h15
        · exact ih (lvl + 1) _ r h
      · rcases List.mem_singleton.mp h with h
        subst h; exact le_of_not_lt h15

theorem runCascade_consec (ex : Nat → String → ℚ → ℚ → Bool × ℚ)
    (cache : String → Option ℚ) :
    ∀ (l : List (String × AssetConfig)) (lvl : Nat) (cc : ℚ) (i : Nat)
      (r1 r2 : LevelRecord),
      (runCascade ex cache l lvl cc)[i]? = some r1 →
      (runCascade ex cache l lvl cc)[i + 1]? = some r2 →
      r1.success = true ∧ 0 < r1.actualLoan ∧
        r2.startCapital = r1.actualLoan := by
  intro l
  induction l with
  | nil => intro lvl cc i r1 r2 h1 h2; simp [runCascade] at h1
  | cons hd rest ih =>
    intro lvl cc i r1 r2 h1 h2
    simp only [runCascade] at h1 h2
    split at h1
    · simp at h1
    · rename_i h15
      rw [if_neg h15] at h2
      split at h1 <;> rename_i hsucc
      · rw [if_pos hsucc] at h2
        cases i with
        | zero =>
          rw [List.getElem?_cons_zero] at h1
          injection h1 with h1
          rw [List.getElem?_cons_succ] at h2
          subst h1
          exact ⟨hsucc.1, hsucc.2,
            runCascade_head_start ex cache rest (lvl + 1) _ r2 h2⟩
        | succ j =>
          rw [List.getElem?_cons_succ] at h1
          rw [List.getElem?_cons_succ] at h2
          exact ih (lvl + 1) _ j r1 r2 h1 h2
      · rw [if_neg hsucc] at h2
        cases i with
        | zero => simp at h2
        | succ j => simp at h1

theorem runCascade_loan_formula (ex : Nat → String → ℚ → ℚ → Bool × ℚ)
    (cache : String → Option ℚ) :
    ∀ (l : List (String × AssetConfig)) (lvl : Nat) (cc : ℚ) (i : Nat)
      (r : LevelRecord),
      (runCascade ex cache l lvl cc)[i]? = some r →
      ∃ cfg, l[i]? = some (r.asset, cfg) ∧
        r.maxLoan = r.startCapital * ((cache r.asset).getD cfg.ltv_max) *
          (85 / 100) := by
  intro l
  induction l with
  | nil => intro lvl cc i r h; simp [runCascade] at h
  | cons hd rest ih =>
    intro lvl cc i r h
    simp only [runCascade] at h
    split at h
    · simp at h
    · split at h
      · cases i with
        | zero =>
          simp only [List.getElem?_cons_zero, Option.some.injEq] at h
          subst h
          exact ⟨hd.2, by simp, rfl⟩
        | succ j =>
          simp only [List.getElem?_cons_succ] at h ⊢
          exact ih (lvl + 1) _ j r h
      · cases i with
        | zero =>
          simp only [List.getElem?_cons_zero, Option.some.injEq] at h
          subst h
          exact ⟨hd.2, by simp, rfl⟩
        | succ j => simp_all

/-!
Section 8: the claims.
-/

/-- Claim C1, counterexample: the spec lists GET /assets among the HTTP
endpoints, but the Flask application registers no route for the /assets
path, so the claim that every listed endpoint has a registered handler is
false at the concrete endpoint (GET, /assets). -/
theorem C1_counterexample :
    ("GET", "/assets") ∈ specListedEndpoints ∧
      registersRoute "GET" "/assets" = false := by
  constructor
  · decide
  · rfl

/-- Claim C1, amended: the Flask application registers route handlers for
POST /start, POST /stop, GET /status and GET /balances, but registers no
route at all for the /assets path (the remaining registered routes are
GET / and GET /test). -/
theorem C1_routes_amended :
    registersRoute "POST" "/start" = true ∧
    registersRoute "POST" "/stop" = true ∧
    registersRoute "GET" "/status" = true ∧
    registersRoute "GET" "/balances" = true ∧
    appRoutes.all (fun r => !(r.path == "/assets")) = true := by
  refine ⟨rfl, rfl, rfl, rfl, rfl⟩

/-- Claim C2: whenever a bot instance exists or credentials are configured
(so the /balances handler reaches the bot call), the handler raises
AttributeError on bot.get_account_balances(), because the class
EarnWalletLeverageBot defines no method of that name - the code that would
compute the balances sits after the return statement of test_connection
and is unreachable. -/
theorem C2_balances_attribute_error (botExists credsConfigured : Bool)
    (h : botExists = true ∨ credsConfigured = true) :
    earnWalletLeverageBotMethods.contains "get_account_balances" = false ∧
    get_balances_handler botExists credsConfigured =
      HandlerOutcome.attributeError "get_account_balances" := by
  refine ⟨rfl, ?_⟩
  rcases h with h | h <;> subst h
  · cases credsConfigured <;> rfl
  · cases botExists <;> rfl

/-- Witness for C2 at the concrete input where a bot instance exists. -/
theorem C2_witness :
    earnWalletLeverageBotMethods.contains "get_account_balances" = false ∧
    get_balances_handler true true =
      HandlerOutcome.attributeError "get_account_balances" :=
  C2_balances_attribute_error true true (Or.inl rfl)

/-- Claim C3: for every initial capital and every available-assets list,
the cascade loop executes at most max_cascade_levels iterations, and
max_cascade_levels is 3, so a fourth level never runs. -/
theorem C3_cascade_at_most_three_levels (ex : Nat → String → ℚ → ℚ → Bool × ℚ)
    (cache : String → Option ℚ) (available : List (String × AssetConfig))
    (capital : ℚ) :
    (execute_earn_cascade_strategy ex cache available capital).length ≤
      max_cascade_levels ∧ max_cascade_levels = 3 := by
  refine ⟨?_, rfl⟩
  refine le_trans (runCascade_length_le ex cache _ 0 capital) ?_
  simp only [List.length_take, max_cascade_levels]
  omega

/-- Claim C4: every executed cascade level starts with capital at least the
hardcoded floor of 15 dollars (an iteration that would start below it
breaks instead), and any level that has a successor in the trace reported
success with a positive actual loan (a failing level breaks the loop, so
no further level is attempted). -/
theorem C4_cascade_stops_early (ex : Nat → String → ℚ → ℚ → Bool × ℚ)
    (cache : String → Option ℚ) (available : List (String × AssetConfig))
    (capital : ℚ) (i : Nat) (r : LevelRecord)
    (h : (execute_earn_cascade_strategy ex cache available capital)[i]? =
      some r) :
    15 ≤ r.startCapital ∧
    (∀ r2, (execute_earn_cascade_strategy ex cache available capital)[i + 1]? =
        some r2 → r.success = true ∧ 0 < r.actualLoan) := by
  constructor
  · exact runCascade_start_ge ex cache _ 0 capital r (List.getElem?_mem h)
  · intro r2 h2
    have hc := runCascade_consec ex cache _ 0 capital i r r2 h h2
    exact ⟨hc.1, hc.2.1⟩

/-- Claim C7: at every executed cascade level, the requested loan equals
the level starting capital times the maximum loan-to-value ratio (the
initial_ltv from the collateral data cache when the cache holds the asset,
else the configured ltv_max) times the 0.85 safety factor, and when the
trace continues, the next level starts with exactly the actual loan the
level produced. -/
theorem C7_loan_amount_and_chaining (ex : Nat → String → ℚ → ℚ → Bool × ℚ)
    (cache : String → Option ℚ) (available : List (String × AssetConfig))
    (capital : ℚ) (i : Nat) (r : LevelRecord) (name : String)
    (cfg : AssetConfig)
    (h : (execute_earn_cascade_strategy ex cache available capital)[i]? =
      some r)
    (ha : (available.take (min max_cascade_levels available.length))[i]? =
      some (name, cfg)) :
    r.asset = name ∧
    r.maxLoan = r.startCapital * ((cache name).getD cfg.ltv_max) * (85 / 100) ∧
    (∀ r2, (execute_earn_cascade_strategy ex cache available capital)[i + 1]? =
        some r2 → r2.startCapital = r.actualLoan) := by
  obtain ⟨cfg2, hl, hf⟩ := runCascade_loan_formula ex cache _ 0 capital i r h
  rw [ha] at hl
  have hpair := Option.some.injEq _ _ ▸ hl
  obtain ⟨hn, hcfg⟩ := Prod.mk.injEq .. ▸ hpair
  refine ⟨hn.symm, ?_, ?_⟩
  · rw [hn, hcfg]; exact hf
  · intro r2 h2
    exact (runCascade_consec ex cache _ 0 capital i r r2 h h2).2.2

/-- Claim C8: stop_trading (on its non-exception path) leaves an empty
positions list, zero leveraged_capital and total_yield, is_running False
and bot_status Stopped; and when its close steps all succeed,
_emergency_liquidate_position removes the liquidated position from the
positions list. -/
theorem C8_stop_and_liquidate_clear (s : BotState) (p : Position) :
    (stop_trading s).1.positions = [] ∧
    (stop_trading s).1.leveraged_capital = 0 ∧
    (stop_trading s).1.total_yield = 0 ∧
    (stop_trading s).1.is_running = false ∧
    (stop_trading s).1.bot_status = "Stopped" ∧
    (emergency_liquidate_position s p true true true).positions =
      s.positions.erase p := by
  refine ⟨rfl, rfl, rfl, rfl, rfl, ?_⟩
  unfold emergency_liquidate_position liquidateTail
  split_ifs <;> simp_all

/-- Claim C10: the signature function is a deterministic function of its
inputs - two calls of _generate_signature with the same secret and the
same query string return the same hex digest. -/
theorem C10_signature_deterministic (s1 s2 q1 q2 : String)
    (hs : s1 = s2) (hq : q1 = q2) :
    generate_signature s1 q1 = generate_signature s2 q2 := by
  rw [hs, hq]

/-- Witness for C10 at a concrete secret and query string. -/
theorem C10_witness :
    ("secret" : String) = "secret" ∧ ("a=1&b=2" : String) = "a=1&b=2" ∧
    generate_signature "secret" "a=1&b=2" =
      generate_signature "secret" "a=1&b=2" :=
  ⟨rfl, rfl, C10_signature_deterministic "secret" "secret" "a=1&b=2" "a=1&b=2"
    rfl rfl⟩

/-- Claim C5: for every endpoint, method among GET, POST and DELETE, and
parameter map, _make_request returns the parsed JSON body when the HTTP
status is 200, and otherwise a dict holding the keys error and message -
on non-200 status, timeout, connection failure or any other exception;
since the embedded function is total, no exception reaches the caller. -/
theorem C5_make_request_shape (apiSecret apiKey endpoint : String)
    (params : List (String × String)) (method : String)
    (requireAuth : Option Bool) (ts : Nat) (outcome : HttpOutcome)
    (hm : method = "GET" ∨ method = "POST" ∨ method = "DELETE") :
    (∃ resp, outcome = HttpOutcome.response resp ∧ resp.status_code = 200 ∧
      resp.body = Except.ok (make_request apiSecret apiKey endpoint params
        method requireAuth ts outcome).2) ∨
    ((jvalLookup (make_request apiSecret apiKey endpoint params method
        requireAuth ts outcome).2 "error").isSome = true ∧
     (jvalLookup (make_request apiSecret apiKey endpoint params method
        requireAuth ts outcome).2 "message").isSome = true) := by
  have hres : (make_request apiSecret apiKey endpoint params method
      requireAuth ts outcome).2 = handleOutcome outcome := by
    simp [make_request, hm]
  rw [hres]
  cases outcome with
  | response r =>
    by_cases h200 : r.status_code = 200
    · cases hb : r.body with
      | ok v =>
        left
        exact ⟨r, rfl, h200, by simp [handleOutcome, h200, hb]⟩
      | error msg =>
        right
        simp [handleOutcome, h200, hb, errorDict, jvalLookup, lookupField]
    · right
      cases hb : r.body with
      | ok v =>
        cases v <;>
          simp [handleOutcome, h200, hb, errorDict, jvalLookup, lookupField]
      | error msg =>
        simp [handleOutcome, h200, hb, errorDict, jvalLookup, lookupField]
  | timeout =>
    right; simp [handleOutcome, errorDict, jvalLookup, lookupField]
  | connectionFailure =>
    right; simp [handleOutcome, errorDict, jvalLookup, lookupField]
  | otherException msg =>
    right; simp [handleOutcome, errorDict, jvalLookup, lookupField]

/-- Witness for C5 at a concrete request whose dispatch times out. -/
theorem C5_witness :
    (("GET" : String) = "GET" ∨ ("GET" : String) = "POST" ∨
      ("GET" : String) = "DELETE") ∧
    ((∃ resp, HttpOutcome.timeout = HttpOutcome.response resp ∧
        resp.status_code = 200 ∧
        resp.body = Except.ok (make_request "s" "k" "/api/v3/ping" [] "GET"
          none 0 HttpOutcome.timeout).2) ∨
     ((jvalLookup (make_request "s" "k" "/api/v3/ping" [] "GET" none 0
        HttpOutcome.timeout).2 "error").isSome = true ∧
      (jvalLookup (make_request "s" "k" "/api/v3/ping" [] "GET" none 0
        HttpOutcome.timeout).2 "message").isSome = true)) :=
  ⟨Or.inl rfl, C5_make_request_shape "s" "k" "/api/v3/ping" [] "GET" none 0
    HttpOutcome.timeout (Or.inl rfl)⟩

/-- Claim C6: with require_auth left unset, a request to a public endpoint
is sent with the caller parameters untouched (no timestamp, no signature)
and empty headers, while a request to any other endpoint gets the
parameter map extended with the timestamp and the HMAC-SHA256 hex
signature of the ampersand-joined query string (with the recvWindow the
source also appends), under the X-MBX-APIKEY header. -/
theorem C6_auth_signing (apiSecret apiKey endpoint : String)
    (params : List (String × String)) (ts : Nat) :
    (endpoint ∈ publicEndpoints →
      prepareRequest apiSecret apiKey endpoint params none ts =
        ⟨params, []⟩) ∧
    (endpoint ∉ publicEndpoints →
      prepareRequest apiSecret apiKey endpoint params none ts =
        ⟨(params ++ [("timestamp", toString ts), ("recvWindow", "60000")]) ++
          [("signature", generate_signature apiSecret (queryStringOf
            (params ++ [("timestamp", toString ts),
                        ("recvWindow", "60000")])))],
         [("X-MBX-APIKEY", apiKey)]⟩) := by
  constructor
  · intro h
    simp [prepareRequest, h]
  · intro h
    simp [prepareRequest, h]

/-- Witness for C6 at one public and one authenticated endpoint. -/
theorem C6_witness :
    ("/api/v3/ping" ∈ publicEndpoints) ∧
    ("/api/v3/account" ∉ publicEndpoints) ∧
    prepareRequest "s" "k" "/api/v3/ping" [("symbol", "BTCUSDT")] none 7 =
      ⟨[("symbol", "BTCUSDT")], []⟩ ∧
    prepareRequest "s" "k" "/api/v3/account" [] none 7 =
      ⟨(([] : List (String × String)) ++
          [("timestamp", toString 7), ("recvWindow", "60000")]) ++
        [("signature", generate_signature "s" (queryStringOf
          (([] : List (String × String)) ++
            [("timestamp", toString 7), ("recvWindow", "60000")])))],
       [("X-MBX-APIKEY", "k")]⟩ := by
  have h1 : ("/api/v3/ping" : String) ∈ publicEndpoints := by decide
  have h2 : ("/api/v3/account" : String) ∉ publicEndpoints := by decide
  exact ⟨h1, h2,
    (C6_auth_signing "s" "k" "/api/v3/ping" [("symbol", "BTCUSDT")] 7).1 h1,
    (C6_auth_signing "s" "k" "/api/v3/account" [] 7).2 h2⟩

/-- Claim C9: whenever total_capital is 0, get_portfolio_status returns
normally with leverage_ratio 0 and total_yield 0; the guarded divisions by
total_capital are never evaluated, so no ZeroDivisionError is raised. -/
theorem C9_leverage_zero_guard (price : String → ℚ) (s : BotState)
    (h : s.total_capital = 0) :
    ∃ st, get_portfolio_status price s = Except.ok st ∧
      st.leverage_ratio_entry = 0 ∧ st.total_yield = 0 := by
  refine ⟨⟨s.bot_status, s.positions.length, s.total_capital,
    s.positions.foldl (fun acc p =>
      acc + (if p.loan_asset = "USDT" then p.loan_amount
             else p.loan_amount * price p.loan_asset)) 0,
    s.positions.foldl (fun acc p => acc + p.collateral_amount * price p.asset)
        0 -
      s.positions.foldl (fun acc p =>
        acc + (if p.loan_asset = "USDT" then p.loan_amount
               else p.loan_amount * price p.loan_asset)) 0,
    0, 0⟩, ?_, rfl, rfl⟩
  unfold get_portfolio_status
  rw [h]
  norm_num

/-- Witness for C9 at a freshly stopped bot state with zero capital. -/
theorem C9_witness :
    (⟨[], 0, 0, 0, false, "Stopped"⟩ : BotState).total_capital = 0 ∧
    ∃ st, get_portfolio_status (fun _ => 1)
        ⟨[], 0, 0, 0, false, "Stopped"⟩ = Except.ok st ∧
      st.leverage_ratio_entry = 0 ∧ st.total_yield = 0 :=
  ⟨rfl, C9_leverage_zero_guard (fun _ => 1) ⟨[], 0, 0, 0, false, "Stopped"⟩
    rfl⟩

/-!
Section 9: concrete cascade runs used by the witnesses of C4 and C7.
-/

def exampleExec : Nat → String → ℚ → ℚ → Bool × ℚ := fun _ _ _ _ => (true, 20)

def exampleCache : String → Option ℚ := fun _ => none

def cfgBTC : AssetConfig := ⟨"BTC", 65/100, 4/100, 1, 25/1000, 25/100⟩

def cfgETH : AssetConfig := ⟨"ETH", 60/100, 5/100, 1, 28/1000, 30/100⟩

def exampleAssets : List (String × AssetConfig) :=
  [("BTC", cfgBTC), ("ETH", cfgETH)]

def exampleTrace : List LevelRecord :=
  execute_earn_cascade_strategy exampleExec exampleCache exampleAssets 100

def exampleRec : LevelRecord :=
  ⟨1, "BTC", 100, 100 * ((65 : ℚ) / 100) * (85 / 100), true, 20⟩

/-- Witness for C4 on a two-asset cascade starting from 100 dollars. -/
theorem C4_witness :
    exampleTrace[0]? = some exampleRec ∧
    15 ≤ exampleRec.startCapital ∧
    (∀ r2, exampleTrace[0 + 1]? = some r2 →
      exampleRec.success = true ∧ 0 < exampleRec.actualLoan) := by
  have h : exampleTrace[0]? = some exampleRec := by rfl
  have hc := C4_cascade_stops_early exampleExec exampleCache exampleAssets
    100 0 exampleRec h
  exact ⟨h, hc.1, hc.2⟩

/-- Witness for C7 on the same concrete cascade. -/
theorem C7_witness :
    exampleTrace[0]? = some exampleRec ∧
    (exampleAssets.take (min max_cascade_levels exampleAssets.length))[0]? =
      some ("BTC", cfgBTC) ∧
    (exampleRec.asset = "BTC" ∧
     exampleRec.maxLoan = exampleRec.startCapital *
       ((exampleCache "BTC").getD cfgBTC.ltv_max) * (85 / 100) ∧
     (∀ r2, exampleTrace[0 + 1]? = some r2 →
       r2.startCapital = exampleRec.actualLoan)) := by
  have h : exampleTrace[0]? = some exampleRec := by rfl
  have ha : (exampleAssets.take
      (min max_cascade_levels exampleAssets.length))[0]? =
      some ("BTC", cfgBTC) := by rfl
  exact ⟨h, ha, C7_loan_amount_and_chaining exampleExec exampleCache
    exampleAssets 100 0 exampleRec "BTC" cfgBTC h ha⟩

end Spec2Proof
